import Mathlib

/-!
# Verification of the Coral Mem0 agent (`src/main.py`)

A shallow embedding of the decision logic of `main.py`:

* the Memory Gateway tool functions `store_user_request_in_mem0` and
  `search_mem0_memories` (lines 57-93), with the external Mem0 client
  modelled as a record of functions returning `Except String _`
  (the `String` of the `error` case is Python's `str(e)` of the raised
  exception);
* the connection-descriptor construction in `setup_mcp_tools`
  (lines 26-55), including a faithful model of
  `urllib.parse.urlencode` / `quote_plus` down to UTF-8 percent-encoding;
* the supervisor `while True` loop of `main` (lines 178-188), as a
  step function over an environment that schedules cycle outcomes and
  keyboard-interrupt arrival points.

Definitions come first, theorems afterwards.
-/

namespace CoralMem0

/-- A message in a Mem0 transcript: the dict `{"role": ..., "content": ...}`
built at `main.py:69-71`. -/
structure Mem0Message where
  role : String
  content : String
deriving DecidableEq, Repr

/-- The external Mem0 client (`client = MemoryClient()` at `main.py:24`).
`add` receives the message list and the `user_id` keyword argument;
`search` receives the query and the `user_id`.  A Python call that raises
an exception `e` is modelled as returning `.error (str e)`; a call that
returns normally is `.ok r` with `r` the `str()` rendering of the result
(only ever used through an f-string). -/
structure MemoryClient where
  add : List Mem0Message → String → Except String String
  search : String → String → Except String String

/-- Python string slicing `s[:50]` at `main.py:73`: the first 50 characters. -/
def pySlice50 (s : String) : String := ⟨s.data.take 50⟩

/-- Tool `store_user_request_in_mem0` (`main.py:57-75`): builds the one-message
transcript, calls `client.add(messages, user_id="reddit_user")`, and returns
the success f-string with the `user_request[:50]` truncation, or converts a
raised exception into the `❌` error string. -/
def store_user_request_in_mem0 (client : MemoryClient) (user_request : String) : String :=
  match client.add [{ role := "user", content := user_request }] "reddit_user" with
  | Except.ok _ =>
      "✨ Successfully stored user request in memory: " ++ pySlice50 user_request ++ "..."
  | Except.error e => "❌ Error storing in memory: " ++ e

/-- Tool `search_mem0_memories` (`main.py:77-93`): calls
`client.search(query, user_id="reddit_user")` and renders the result blob in
the `📚` f-string, or converts a raised exception into the `🔍` error string. -/
def search_mem0_memories (client : MemoryClient) (query : String) : String :=
  match client.search query "reddit_user" with
  | Except.ok relevant_memories =>
      "📚 Relevant memories found for this query: " ++ relevant_memories
  | Except.error e => "🔍 Error searching memories: " ++ e

/-- A client whose every call raises `ConnectionError("down")`
(Python's `str` of that exception is `"down"`). -/
def downClient : MemoryClient where
  add := fun _ _ => Except.error "down"
  search := fun _ _ => Except.error "down"

/-- A client whose calls always succeed. -/
def okClient : MemoryClient where
  add := fun _ _ => Except.ok "ok"
  search := fun _ _ => Except.ok "[]"

/-- A client that answers only calls carrying the fixed user id
`"reddit_user"` and raises on any other user id. -/
def onlyRedditClient : MemoryClient where
  add := fun _ u => if u = "reddit_user" then Except.ok "ok" else Except.error "wrong user"
  search := fun _ u => if u = "reddit_user" then Except.ok "[]" else Except.error "wrong user"

/-! ## The supervisor loop (`main.py:178-188`)

```
while True:
    try:
        logger.info("Starting new Reddit post generation cycle")
        crew.kickoff()
        await asyncio.sleep(1)
    except KeyboardInterrupt:
        logger.info("Received keyboard interrupt, shutting down gracefully...")
        break
    except Exception as e:
        logger.error(f"Error in agent loop: ...")
        await asyncio.sleep(5)
```

One loop iteration is driven by the environment: what `crew.kickoff()` does on
the n-th invocation (returns, raises an ordinary exception, or raises
`KeyboardInterrupt`), and whether a `KeyboardInterrupt` is delivered at the
top of the iteration (during `logger.info`, inside the `try`), during the
post-success `sleep(1)` (inside the `try`), or during the post-failure
`sleep(5)` (inside the `except Exception` handler, hence OUTSIDE the `try`;
Python then propagates it out of the loop uncaught). -/

/-- Outcome of one `crew.kickoff()` invocation (`main.py:181`). -/
inductive CycleOutcome where
  | ok
  | exc (msg : String)
  | interrupt
deriving DecidableEq, Repr

/-- Environment schedule for the supervisor loop: per iteration index, the
kickoff outcome and the keyboard-interrupt arrival points. -/
structure LoopEnv where
  cycle : Nat → CycleOutcome
  kiAtTop : Nat → Bool
  kiDuringIdle : Nat → Bool
  kiDuringBackoff : Nat → Bool

/-- Observable actions of one loop iteration. -/
inductive Action where
  | logStart
  | kickoffCall
  | sleep (units : Nat)
  | logErr (msg : String)
  | logShutdown
deriving DecidableEq, Repr

/-- How one iteration ends: fall through to the next iteration, `break` out
of the loop (the `except KeyboardInterrupt` arm), or propagate an uncaught
exception out of the loop. -/
inductive IterResult where
  | next
  | stopped
  | crashed
deriving DecidableEq, Repr

/-- Control-flow result of the n-th iteration of the `while True` loop.
A `KeyboardInterrupt` raised inside the `try` (at loop top, from `kickoff`,
or during `sleep(1)`) is caught by the `except KeyboardInterrupt` arm and
executes `break`; an ordinary exception enters the `except Exception` arm
and, after `sleep(5)`, falls through to the next iteration — unless a
`KeyboardInterrupt` arrives during that `sleep(5)`, in which case it is not
caught by any handler of this `try` statement and escapes the loop. -/
def iter (env : LoopEnv) (n : Nat) : IterResult :=
  if env.kiAtTop n then IterResult.stopped
  else
    match env.cycle n with
    | CycleOutcome.interrupt => IterResult.stopped
    | CycleOutcome.ok =>
        if env.kiDuringIdle n then IterResult.stopped else IterResult.next
    | CycleOutcome.exc _ =>
        if env.kiDuringBackoff n then IterResult.crashed else IterResult.next

/-- The sequence of observable actions of the n-th iteration.  A completed
post-success iteration is `logStart, kickoffCall, sleep 1`; a completed
post-failure iteration is `logStart, kickoffCall, logErr msg, sleep 5`;
an iteration ended by a caught `KeyboardInterrupt` ends with the
graceful-shutdown log; an iteration killed during the backoff sleep ends
after `logErr` with no shutdown log. -/
def iterTrace (env : LoopEnv) (n : Nat) : List Action :=
  if env.kiAtTop n then [Action.logShutdown]
  else
    match env.cycle n with
    | CycleOutcome.interrupt => [Action.logStart, Action.kickoffCall, Action.logShutdown]
    | CycleOutcome.ok =>
        if env.kiDuringIdle n then [Action.logStart, Action.kickoffCall, Action.logShutdown]
        else [Action.logStart, Action.kickoffCall, Action.sleep 1]
    | CycleOutcome.exc m =>
        if env.kiDuringBackoff n then [Action.logStart, Action.kickoffCall, Action.logErr m]
        else [Action.logStart, Action.kickoffCall, Action.logErr m, Action.sleep 5]

/-- Supervisor state: `running` (in the `while True` loop), `stopped`
(left via `break`, terminal), `crashed` (left via an uncaught exception,
terminal). -/
inductive LoopState where
  | running
  | stopped
  | crashed
deriving DecidableEq, Repr

/-- State transition of the loop from one iteration's result. -/
def stepState (s : LoopState) (r : IterResult) : LoopState :=
  match s with
  | LoopState.running =>
      match r with
      | IterResult.next => LoopState.running
      | IterResult.stopped => LoopState.stopped
      | IterResult.crashed => LoopState.crashed
  | s => s

/-- Supervisor state after `n` iterations of the `while True` loop. -/
def runState (env : LoopEnv) : Nat → LoopState
  | 0 => LoopState.running
  | n + 1 => stepState (runState env n) (iter env n)

/-- Schedule where invocation 3 of the Task Runner raises `"boom"`, every
other invocation succeeds, and no interrupt ever arrives. -/
def excAt3Env : LoopEnv where
  cycle := fun k => if k = 3 then CycleOutcome.exc "boom" else CycleOutcome.ok
  kiAtTop := fun _ => false
  kiDuringIdle := fun _ => false
  kiDuringBackoff := fun _ => false

/-- Schedule where every cycle succeeds and a `KeyboardInterrupt` arrives
during the post-success `sleep(1)` of iteration 2. -/
def idleInterruptEnv : LoopEnv where
  cycle := fun _ => CycleOutcome.ok
  kiAtTop := fun _ => false
  kiDuringIdle := fun k => k == 2
  kiDuringBackoff := fun _ => false

/-- Schedule where cycle 0 raises `TimeoutError` and a `KeyboardInterrupt`
arrives during the post-failure `sleep(5)` of iteration 0. -/
def backoffInterruptEnv : LoopEnv where
  cycle := fun k => if k = 0 then CycleOutcome.exc "TimeoutError" else CycleOutcome.ok
  kiAtTop := fun _ => false
  kiDuringIdle := fun _ => false
  kiDuringBackoff := fun k => k == 0

/-- Schedule where every cycle succeeds and no interrupt arrives. -/
def steadyEnv : LoopEnv where
  cycle := fun _ => CycleOutcome.ok
  kiAtTop := fun _ => false
  kiDuringIdle := fun _ => false
  kiDuringBackoff := fun _ => false

/-! ## Connection descriptor construction (`main.py:26-55`)

`setup_mcp_tools` reads `CORAL_SSE_URL` and `CORAL_AGENT_ID` from the
environment (each possibly absent, i.e. `None`), builds
`urllib.parse.urlencode(coral_params)` and the f-string
`f"{base_url}?{query_string}"`.  We model `urlencode` faithfully down to
bytes: each key and each `str()`-rendered value is UTF-8 encoded and
percent-quoted with `quote_plus` (unreserved bytes kept, space to `+`,
every other byte to `%XX` with uppercase hex), and the `key=value` pairs
are joined with `&`. -/

/-- Bytes never quoted by `urllib.parse.quote`: ASCII alphanumerics and
`_`, `.`, `-`, `~`. -/
def alwaysSafeByte (b : Nat) : Bool :=
  (0x30 ≤ b && b ≤ 0x39) || (0x41 ≤ b && b ≤ 0x5A) || (0x61 ≤ b && b ≤ 0x7A) ||
  b == 0x5F || b == 0x2E || b == 0x2D || b == 0x7E

/-- Uppercase hex digit character of `n < 16`. -/
def hexDigitChar (n : Nat) : Char :=
  if n < 10 then Char.ofNat (0x30 + n) else Char.ofNat (0x41 + (n - 10))

/-- The `quote_plus` quoting of one UTF-8 byte: kept when always-safe, space to
`+`, otherwise `%XX`. -/
def quoteByte (b : Nat) : List Char :=
  if alwaysSafeByte b then [Char.ofNat b]
  else if b = 0x20 then ['+']
  else ['%', hexDigitChar (b / 16), hexDigitChar (b % 16)]

/-- UTF-8 encoding of a single code point. -/
def utf8Bytes (n : Nat) : List Nat :=
  if n < 0x80 then [n]
  else if n < 0x800 then [0xC0 + n / 64, 0x80 + n % 64]
  else if n < 0x10000 then [0xE0 + n / 4096, 0x80 + n / 64 % 64, 0x80 + n % 64]
  else [0xF0 + n / 0x40000, 0x80 + n / 4096 % 64, 0x80 + n / 64 % 64, 0x80 + n % 64]

/-- UTF-8 encoding of a string. -/
def strBytes (s : String) : List Nat :=
  s.data.flatMap (fun c => utf8Bytes c.toNat)

/-- Model of `urllib.parse.quote_plus` with the default empty `safe` set, as called
by `urlencode` on every key and value. -/
def quote_plus (s : String) : String :=
  ⟨(strBytes s).flatMap quoteByte⟩

/-- Python `str()` of an optional environment value: `os.getenv` returns
`None` when unset, and both the f-string at `main.py:42` and `urlencode`
render it as the four characters `None`. -/
def pyStr : Option String → String
  | none => "None"
  | some s => s

/-- The fixed `agentDescription` value of `coral_params` (`main.py:38`). -/
def agentDescription : String :=
  "An AI agent that generates Reddit posts with memory-enhanced personalization"

/-- Model of `urllib.parse.urlencode`: quote each key and each `str()`-ed value,
join `key=value` pairs with `&` (`main.py:41`). -/
def urlencode (params : List (String × Option String)) : String :=
  String.intercalate "&"
    (params.map (fun p => quote_plus p.1 ++ "=" ++ quote_plus (pyStr p.2)))

/-- The `coral_params` dict (`main.py:36-39`), in insertion order. -/
def coral_params (agent_id : Option String) : List (String × Option String) :=
  [("agentId", agent_id), ("agentDescription", some agentDescription)]

/-- The descriptor `CORAL_SERVER_URL = f"...?..."` built at `main.py:42` from the
base URL and the query string. -/
def coralServerURL (base_url agent_id : Option String) : String :=
  pyStr base_url ++ "?" ++ urlencode (coral_params agent_id)

/-- The `server_params` dict handed to `MCPServerAdapter` (`main.py:47-52`). -/
structure ServerParams where
  url : String
  timeout : Nat
  sse_read_timeout : Nat
  transport : String
deriving DecidableEq, Repr

/-- Construction of `server_params` in `setup_mcp_tools` (`main.py:47-54`):
total in the environment values — nothing validates them first. -/
def setup_server_params (base_url agent_id : Option String) : ServerParams :=
  { url := coralServerURL base_url agent_id
    timeout := 600
    sse_read_timeout := 600
    transport := "sse" }

/-- Decoder inverting `quoteByte` on well-formed output, used to show the
byte quoting is a prefix code. -/
def quoteDec : List Char → Option (Nat × List Char)
  | [] => none
  | c :: rest =>
    if c = '+' then some (0x20, rest)
    else if c = '%' then
      match rest with
      | h :: l :: rest' => some (hexVal h * 16 + hexVal l, rest')
      | _ => none
    else some (c.toNat, rest)
where
  hexVal (c : Char) : Nat :=
    if c.toNat ≤ 0x39 then c.toNat - 0x30 else c.toNat - 0x37

/-- Decoder inverting `utf8Bytes` on well-formed output. -/
def utf8Dec : List Nat → Option (Nat × List Nat)
  | [] => none
  | b :: rest =>
    if b < 0x80 then some (b, rest)
    else if b < 0xE0 then
      match rest with
      | c :: rest' => some ((b - 0xC0) * 64 + (c - 0x80), rest')
      | _ => none
    else if b < 0xF0 then
      match rest with
      | c :: d :: rest' => some ((b - 0xE0) * 4096 + (c - 0x80) * 64 + (d - 0x80), rest')
      | _ => none
    else
      match rest with
      | c :: d :: e :: rest' =>
          some ((b - 0xF0) * 0x40000 + (c - 0x80) * 4096 + (d - 0x80) * 64 + (e - 0x80), rest')
      | _ => none

/-- The character data of the query-string part of the descriptor, for a
given `agent_id` string. -/
def queryChars (a : String) : List Char :=
  "agentId=".data ++ (quote_plus a).data ++ "&agentDescription=".data ++
    (quote_plus agentDescription).data

end CoralMem0

namespace CoralMem0

/-- C1: whenever the underlying client raises, `record`
(`store_user_request_in_mem0`) and `recall` (`search_mem0_memories`) return a
string that contains an error indicator (`❌ Error` resp. `🔍 Error`) and the
raised exception's message text; the embedding is a total function into
`String`, so no exception propagates to the caller. -/
theorem record_recall_error_to_string (client : MemoryClient) (req q e e' : String)
    (hadd : client.add [{ role := "user", content := req }] "reddit_user" = Except.error e)
    (hsearch : client.search q "reddit_user" = Except.error e') :
    store_user_request_in_mem0 client req = "❌ Error storing in memory: " ++ e ∧
    e.data <:+: (store_user_request_in_mem0 client req).data ∧
    "❌ Error".data <:+: (store_user_request_in_mem0 client req).data ∧
    search_mem0_memories client q = "🔍 Error searching memories: " ++ e' ∧
    e'.data <:+: (search_mem0_memories client q).data ∧
    "🔍 Error".data <:+: (search_mem0_memories client q).data := by
  have h1 : store_user_request_in_mem0 client req = "❌ Error storing in memory: " ++ e := by
    unfold store_user_request_in_mem0
    rw [hadd]
  have h2 : search_mem0_memories client q = "🔍 Error searching memories: " ++ e' := by
    unfold search_mem0_memories
    rw [hsearch]
  refine ⟨h1, ?_, ?_, h2, ?_, ?_⟩
  · rw [h1]
    exact ⟨"❌ Error storing in memory: ".data, [], by simp [String.data_append]⟩
  · rw [h1]
    have hsplit : "❌ Error storing in memory: ".data =
        "❌ Error".data ++ " storing in memory: ".data := by decide
    exact ⟨[], " storing in memory: ".data ++ e.data,
      by rw [String.data_append, hsplit]; simp⟩
  · rw [h2]
    exact ⟨"🔍 Error searching memories: ".data, [], by simp [String.data_append]⟩
  · rw [h2]
    have hsplit : "🔍 Error searching memories: ".data =
        "🔍 Error".data ++ " searching memories: ".data := by decide
    exact ⟨[], " searching memories: ".data ++ e'.data,
      by rw [String.data_append, hsplit]; simp⟩

/-- Witness for C1: `record("hello")` against a client raising
`ConnectionError("down")` yields a string containing `"down"` and the error
marker; likewise for `recall`. -/
theorem record_recall_error_to_string_witness :
    store_user_request_in_mem0 downClient "hello" = "❌ Error storing in memory: " ++ "down" ∧
    "down".data <:+: (store_user_request_in_mem0 downClient "hello").data ∧
    "❌ Error".data <:+: (store_user_request_in_mem0 downClient "hello").data ∧
    search_mem0_memories downClient "hello" = "🔍 Error searching memories: " ++ "down" ∧
    "down".data <:+: (search_mem0_memories downClient "hello").data ∧
    "🔍 Error".data <:+: (search_mem0_memories downClient "hello").data :=
  record_recall_error_to_string downClient "hello" "hello" "down" "down" rfl rfl

/-- C3: when the client's `add` call returns normally, `record` returns the
success string, which contains `user_request[:50]` — a prefix of the input of
length at most 50. -/
theorem record_success_truncated_prefix (client : MemoryClient) (req r : String)
    (hadd : client.add [{ role := "user", content := req }] "reddit_user" = Except.ok r) :
    store_user_request_in_mem0 client req =
      "✨ Successfully stored user request in memory: " ++ pySlice50 req ++ "..." ∧
    (pySlice50 req).data <+: req.data ∧
    (pySlice50 req).length ≤ 50 ∧
    (pySlice50 req).data <:+: (store_user_request_in_mem0 client req).data := by
  have h1 : store_user_request_in_mem0 client req =
      "✨ Successfully stored user request in memory: " ++ pySlice50 req ++ "..." := by
    unfold store_user_request_in_mem0
    rw [hadd]
  refine ⟨h1, ?_, ?_, ?_⟩
  · exact List.take_prefix 50 req.data
  · have hlen : (pySlice50 req).length = (req.data.take 50).length := rfl
    rw [hlen, List.length_take]
    exact Nat.min_le_left _ _
  · rw [h1]
    exact ⟨"✨ Successfully stored user request in memory: ".data, "...".data,
      by simp [String.data_append]⟩

/-- Witness for C3 at the concrete request `"hello world"`. -/
theorem record_success_truncated_prefix_witness :
    store_user_request_in_mem0 okClient "hello world" =
      "✨ Successfully stored user request in memory: " ++ pySlice50 "hello world" ++ "..." ∧
    (pySlice50 "hello world").data <+: "hello world".data ∧
    (pySlice50 "hello world").length ≤ 50 ∧
    (pySlice50 "hello world").data <:+:
      (store_user_request_in_mem0 okClient "hello world").data :=
  record_success_truncated_prefix okClient "hello world" "ok" rfl

/-- C7: the behaviour of `record` depends on the client only through the
single call `add [{role := "user", content := request}] "reddit_user"` — the
exact one-message transcript under the fixed user id — and the behaviour of
`recall` depends on the client only through `search query "reddit_user"`,
the same fixed user id. -/
theorem fixed_user_id_single_call (c₁ c₂ : MemoryClient) (req q : String)
    (hadd : c₁.add [{ role := "user", content := req }] "reddit_user" =
            c₂.add [{ role := "user", content := req }] "reddit_user")
    (hsearch : c₁.search q "reddit_user" = c₂.search q "reddit_user") :
    store_user_request_in_mem0 c₁ req = store_user_request_in_mem0 c₂ req ∧
    search_mem0_memories c₁ q = search_mem0_memories c₂ q := by
  constructor
  · unfold store_user_request_in_mem0
    rw [hadd]
  · unfold search_mem0_memories
    rw [hsearch]

/-- Witness for C7: `okClient` and `onlyRedditClient` differ on every user id
other than `"reddit_user"`, yet both tools behave identically on them. -/
theorem fixed_user_id_single_call_witness :
    store_user_request_in_mem0 okClient "hi" = store_user_request_in_mem0 onlyRedditClient "hi" ∧
    search_mem0_memories okClient "hi" = search_mem0_memories onlyRedditClient "hi" :=
  fixed_user_id_single_call okClient onlyRedditClient "hi" "hi" rfl rfl

/-- C2: with no interrupts scheduled, a Task Runner that raises `m` on
invocation `N` and succeeds on all others keeps the supervisor running
forever: every iteration invokes `kickoff`, iteration `N` logs the error and
sleeps the fixed 5 units before falling through to invocation `N + 1`, and
the loop never leaves the `running` state. -/
theorem supervisor_unbounded_retry (env : LoopEnv) (N : Nat) (m : String)
    (hki : ∀ k, env.kiAtTop k = false ∧ env.kiDuringIdle k = false ∧
      env.kiDuringBackoff k = false)
    (hN : env.cycle N = CycleOutcome.exc m)
    (hother : ∀ k, k ≠ N → env.cycle k = CycleOutcome.ok) :
    (∀ n, runState env n = LoopState.running) ∧
    iterTrace env N =
      [Action.logStart, Action.kickoffCall, Action.logErr m, Action.sleep 5] ∧
    iter env N = IterResult.next ∧
    (∀ n, Action.kickoffCall ∈ iterTrace env n) := by
  have hnext : ∀ n, iter env n = IterResult.next := by
    intro n
    by_cases hn : n = N
    · subst hn
      simp [iter, (hki n).1, (hki n).2.2, hN]
    · simp [iter, (hki n).1, (hki n).2.1, hother n hn]
  have hrun : ∀ n, runState env n = LoopState.running := by
    intro n
    induction n with
    | zero => rfl
    | succ k ih => simp [runState, stepState, ih, hnext k]
  refine ⟨hrun, ?_, hnext N, ?_⟩
  · simp [iterTrace, (hki N).1, (hki N).2.2, hN]
  · intro n
    by_cases hn : n = N
    · subst hn
      simp [iterTrace, (hki n).1, (hki n).2.2, hN]
    · simp [iterTrace, (hki n).1, (hki n).2.1, hother n hn]

/-- Witness for C2: the schedule failing exactly at invocation 3. -/
theorem supervisor_unbounded_retry_witness :
    (∀ n, runState excAt3Env n = LoopState.running) ∧
    iterTrace excAt3Env 3 =
      [Action.logStart, Action.kickoffCall, Action.logErr "boom", Action.sleep 5] ∧
    iter excAt3Env 3 = IterResult.next ∧
    (∀ n, Action.kickoffCall ∈ iterTrace excAt3Env n) :=
  supervisor_unbounded_retry excAt3Env 3 "boom" (fun _ => ⟨rfl, rfl, rfl⟩) rfl
    (fun k hk => by simp [excAt3Env, hk])

/-- C4: a `KeyboardInterrupt` delivered at the top of an iteration or during
the post-success idle `sleep(1)` is caught by the `except KeyboardInterrupt`
arm: the iteration executes `break`, the loop enters the terminal `stopped`
state at once, and no further delay (in particular no 5-unit backoff sleep)
is executed after the interrupt — the trace ends in the graceful-shutdown
log. -/
theorem interrupt_clean_stop (env : LoopEnv) (n : Nat)
    (hrun : runState env n = LoopState.running)
    (h : env.kiAtTop n = true ∨
      (env.cycle n = CycleOutcome.ok ∧ env.kiDuringIdle n = true)) :
    iter env n = IterResult.stopped ∧
    runState env (n + 1) = LoopState.stopped ∧
    Action.sleep 5 ∉ iterTrace env n ∧
    Action.sleep 1 ∉ iterTrace env n ∧
    (iterTrace env n).getLast? = some Action.logShutdown := by
  have hstop : iter env n = IterResult.stopped ∧
      Action.sleep 5 ∉ iterTrace env n ∧
      Action.sleep 1 ∉ iterTrace env n ∧
      (iterTrace env n).getLast? = some Action.logShutdown := by
    by_cases hT : env.kiAtTop n = true
    · refine ⟨by simp [iter, hT], ?_, ?_, ?_⟩ <;> simp [iterTrace, hT]
    · rcases h with h | ⟨hC, hI⟩
      · exact absurd h hT
      · refine ⟨by simp [iter, hT, hC, hI], ?_, ?_, ?_⟩ <;> simp [iterTrace, hT, hC, hI]
  exact ⟨hstop.1, by simp [runState, stepState, hrun, hstop.1], hstop.2.1, hstop.2.2.1,
    hstop.2.2.2⟩

/-- Witness for C4: interrupt during the idle delay of iteration 2 of an
otherwise-successful schedule. -/
theorem interrupt_clean_stop_witness :
    iter idleInterruptEnv 2 = IterResult.stopped ∧
    runState idleInterruptEnv (2 + 1) = LoopState.stopped ∧
    Action.sleep 5 ∉ iterTrace idleInterruptEnv 2 ∧
    Action.sleep 1 ∉ iterTrace idleInterruptEnv 2 ∧
    (iterTrace idleInterruptEnv 2).getLast? = some Action.logShutdown :=
  interrupt_clean_stop idleInterruptEnv 2 rfl (Or.inr ⟨rfl, rfl⟩)

/-- C8: an iteration whose kickoff returns normally and undisturbed by
interrupts sleeps exactly 1 unit after the cycle and falls through to the
next iteration, the loop staying in the `running` state. -/
theorem idle_delay_after_success (env : LoopEnv) (n : Nat)
    (hT : env.kiAtTop n = false)
    (hC : env.cycle n = CycleOutcome.ok)
    (hI : env.kiDuringIdle n = false) :
    iterTrace env n = [Action.logStart, Action.kickoffCall, Action.sleep 1] ∧
    (iterTrace env n).getLast? = some (Action.sleep 1) ∧
    iter env n = IterResult.next ∧
    (runState env n = LoopState.running → runState env (n + 1) = LoopState.running) := by
  have htr : iterTrace env n = [Action.logStart, Action.kickoffCall, Action.sleep 1] := by
    simp [iterTrace, hT, hC, hI]
  have hit : iter env n = IterResult.next := by
    simp [iter, hT, hC, hI]
  exact ⟨htr, by rw [htr]; rfl, hit,
    fun hrun => by simp [runState, stepState, hrun, hit]⟩

/-- Witness for C8: iteration 0 of the all-success schedule. -/
theorem idle_delay_after_success_witness :
    iterTrace steadyEnv 0 = [Action.logStart, Action.kickoffCall, Action.sleep 1] ∧
    (iterTrace steadyEnv 0).getLast? = some (Action.sleep 1) ∧
    iter steadyEnv 0 = IterResult.next ∧
    (runState steadyEnv 0 = LoopState.running →
      runState steadyEnv (0 + 1) = LoopState.running) :=
  idle_delay_after_success steadyEnv 0 rfl rfl rfl

/-- C9: a `KeyboardInterrupt` delivered during the post-failure `sleep(5)` —
which runs inside the `except Exception` handler, outside the `try` block —
is not caught by the loop's `except KeyboardInterrupt` arm: the iteration
ends as `crashed`, the exception propagates out of the loop (terminal
`crashed` state, not `stopped`), and the graceful-shutdown log never
appears. -/
theorem interrupt_during_backoff_crashes (env : LoopEnv) (n : Nat) (m : String)
    (hrun : runState env n = LoopState.running)
    (hT : env.kiAtTop n = false)
    (hC : env.cycle n = CycleOutcome.exc m)
    (hB : env.kiDuringBackoff n = true) :
    iter env n = IterResult.crashed ∧
    iter env n ≠ IterResult.stopped ∧
    runState env (n + 1) = LoopState.crashed ∧
    runState env (n + 1) ≠ LoopState.stopped ∧
    Action.logShutdown ∉ iterTrace env n := by
  have h1 : iter env n = IterResult.crashed := by
    simp [iter, hT, hC, hB]
  have h2 : iterTrace env n = [Action.logStart, Action.kickoffCall, Action.logErr m] := by
    simp [iterTrace, hT, hC, hB]
  have h3 : runState env (n + 1) = LoopState.crashed := by
    simp [runState, stepState, hrun, h1]
  exact ⟨h1, by simp [h1], h3, by simp [h3], by simp [h2]⟩

/-- Witness for C9: interrupt during the backoff sleep of iteration 0, whose
cycle raised `TimeoutError`. -/
theorem interrupt_during_backoff_crashes_witness :
    iter backoffInterruptEnv 0 = IterResult.crashed ∧
    iter backoffInterruptEnv 0 ≠ IterResult.stopped ∧
    runState backoffInterruptEnv (0 + 1) = LoopState.crashed ∧
    runState backoffInterruptEnv (0 + 1) ≠ LoopState.stopped ∧
    Action.logShutdown ∉ iterTrace backoffInterruptEnv 0 :=
  interrupt_during_backoff_crashes backoffInterruptEnv 0 "TimeoutError" rfl rfl rfl rfl

/-! ### Encoding lemmas: `quote_plus` is injective and never emits `?` -/

set_option maxRecDepth 8192

lemma str_data_inj {s t : String} (h : s.data = t.data) : s = t := by
  cases s
  cases t
  exact congrArg String.mk h

lemma char_toNat_inj {c d : Char} (h : c.toNat = d.toNat) : c = d :=
  Char.eq_of_val_eq (UInt32.eq_of_toBitVec_eq (BitVec.eq_of_toNat_eq h))

lemma char_toNat_lt (c : Char) : c.toNat < 1114112 := by
  rcases c.valid with h | h
  · exact Nat.lt_trans h (by norm_num)
  · exact h.2

lemma char_ofNat_toNat : ∀ b : Nat, b < 256 → (Char.ofNat b).toNat = b := by decide

lemma safeByte_char : ∀ b : Nat, b < 256 → alwaysSafeByte b = true →
    Char.ofNat b ≠ '+' ∧ Char.ofNat b ≠ '%' ∧ Char.ofNat b ≠ '?' := by decide

lemma hexVal_hexDigitChar : ∀ x : Nat, x < 16 → quoteDec.hexVal (hexDigitChar x) = x := by decide

lemma qmark_not_mem_quoteByte : ∀ b : Nat, b < 256 → '?' ∉ quoteByte b := by decide

lemma quoteByte_ne_nil (b : Nat) : quoteByte b ≠ [] := by
  unfold quoteByte
  split_ifs <;> simp

lemma quoteDec_quoteByte (b : Nat) (hb : b < 256) (r : List Char) :
    quoteDec (quoteByte b ++ r) = some (b, r) := by
  unfold quoteByte
  split_ifs with hs hsp
  · obtain ⟨h1, h2, _⟩ := safeByte_char b hb hs
    simp only [List.cons_append, List.nil_append]
    unfold quoteDec
    simp [h1, h2, char_ofNat_toNat b hb]
  · subst hsp
    simp only [List.cons_append, List.nil_append]
    unfold quoteDec
    simp
  · simp only [List.cons_append, List.nil_append]
    unfold quoteDec
    have h1 : ('%' : Char) ≠ '+' := by decide
    simp [h1, hexVal_hexDigitChar (b / 16) (by omega), hexVal_hexDigitChar (b % 16) (by omega)]
    omega

lemma quoteByte_pf {b1 b2 : Nat} (h1 : b1 < 256) (h2 : b2 < 256) {r1 r2 : List Char}
    (heq : quoteByte b1 ++ r1 = quoteByte b2 ++ r2) : b1 = b2 ∧ r1 = r2 := by
  have d1 := quoteDec_quoteByte b1 h1 r1
  have d2 := quoteDec_quoteByte b2 h2 r2
  rw [heq, d2] at d1
  simp only [Option.some.injEq, Prod.mk.injEq] at d1
  exact ⟨d1.1.symm, d1.2.symm⟩

lemma utf8Bytes_ne_nil (n : Nat) : utf8Bytes n ≠ [] := by
  unfold utf8Bytes
  split_ifs <;> simp

lemma utf8Bytes_lt (n : Nat) (h : n < 1114112) : ∀ b ∈ utf8Bytes n, b < 256 := by
  unfold utf8Bytes
  split_ifs <;> intro b hb <;> simp at hb <;> omega

lemma utf8Dec_utf8Bytes (n : Nat) (h : n < 1114112) (r : List Nat) :
    utf8Dec (utf8Bytes n ++ r) = some (n, r) := by
  unfold utf8Bytes
  split_ifs with h1 h2 h3
  · simp only [List.cons_append, List.nil_append]
    unfold utf8Dec
    simp [h1]
  · have c1 : ¬ (0xC0 + n / 64 < 0x80) := by omega
    have c2 : 0xC0 + n / 64 < 0xE0 := by omega
    simp only [List.cons_append, List.nil_append]
    unfold utf8Dec
    simp [c1, c2]
    omega
  · have c1 : ¬ (0xE0 + n / 4096 < 0x80) := by omega
    have c2 : ¬ (0xE0 + n / 4096 < 0xE0) := by omega
    have c3 : 0xE0 + n / 4096 < 0xF0 := by omega
    simp only [List.cons_append, List.nil_append]
    unfold utf8Dec
    simp [c1, c2, c3]
    omega
  · have c1 : ¬ (0xF0 + n / 262144 < 0x80) := by omega
    have c2 : ¬ (0xF0 + n / 262144 < 0xE0) := by omega
    have c3 : ¬ (0xF0 + n / 262144 < 0xF0) := by omega
    simp only [List.cons_append, List.nil_append]
    unfold utf8Dec
    simp [c1, c2, c3]
    omega

lemma utf8_pf {n1 n2 : Nat} (h1 : n1 < 1114112) (h2 : n2 < 1114112) {r1 r2 : List Nat}
    (heq : utf8Bytes n1 ++ r1 = utf8Bytes n2 ++ r2) : n1 = n2 ∧ r1 = r2 := by
  have d1 := utf8Dec_utf8Bytes n1 h1 r1
  have d2 := utf8Dec_utf8Bytes n2 h2 r2
  rw [heq, d2] at d1
  simp only [Option.some.injEq, Prod.mk.injEq] at d1
  exact ⟨d1.1.symm, d1.2.symm⟩

lemma flatMap_inj_on {α β : Type} (f : α → List β) (P : α → Prop)
    (hne : ∀ a, P a → f a ≠ [])
    (hpf : ∀ a1 a2 (r1 r2 : List β), P a1 → P a2 →
      f a1 ++ r1 = f a2 ++ r2 → a1 = a2 ∧ r1 = r2) :
    ∀ l1 l2 : List α, (∀ a ∈ l1, P a) → (∀ a ∈ l2, P a) →
      l1.flatMap f = l2.flatMap f → l1 = l2 := by
  intro l1
  induction l1 with
  | nil =>
    intro l2 _ hP2 heq
    cases l2 with
    | nil => rfl
    | cons a t =>
      exfalso
      rw [List.flatMap_nil, List.flatMap_cons] at heq
      exact hne a (hP2 a (List.mem_cons_self a t)) (List.append_eq_nil.mp heq.symm).1
  | cons a t ih =>
    intro l2 hP1 hP2 heq
    cases l2 with
    | nil =>
      exfalso
      rw [List.flatMap_nil, List.flatMap_cons] at heq
      exact hne a (hP1 a (List.mem_cons_self a t)) (List.append_eq_nil.mp heq).1
    | cons b u =>
      rw [List.flatMap_cons, List.flatMap_cons] at heq
      obtain ⟨hab, htail⟩ := hpf a b _ _ (hP1 a (List.mem_cons_self a t))
        (hP2 b (List.mem_cons_self b u)) heq
      subst hab
      rw [ih u (fun x hx => hP1 x (List.mem_cons_of_mem a hx))
        (fun x hx => hP2 x (List.mem_cons_of_mem a hx)) htail]

lemma strBytes_lt (s : String) : ∀ b ∈ strBytes s, b < 256 := by
  intro b hb
  rw [strBytes, List.mem_flatMap] at hb
  obtain ⟨c, _, hbc⟩ := hb
  exact utf8Bytes_lt c.toNat (char_toNat_lt c) b hbc

lemma quote_plus_data (s : String) : (quote_plus s).data = (strBytes s).flatMap quoteByte := rfl

lemma quote_plus_inj {s t : String} (h : quote_plus s = quote_plus t) : s = t := by
  have hd : (strBytes s).flatMap quoteByte = (strBytes t).flatMap quoteByte := by
    rw [← quote_plus_data, ← quote_plus_data, h]
  have hbytes : strBytes s = strBytes t :=
    flatMap_inj_on quoteByte (fun b => b < 256)
      (fun b _ => quoteByte_ne_nil b)
      (fun b1 b2 r1 r2 p1 p2 he => quoteByte_pf p1 p2 he)
      _ _ (strBytes_lt s) (strBytes_lt t) hd
  unfold strBytes at hbytes
  have hchars : s.data = t.data :=
    flatMap_inj_on (fun c => utf8Bytes c.toNat) (fun _ => True)
      (fun c _ => utf8Bytes_ne_nil c.toNat)
      (fun c1 c2 r1 r2 _ _ he => by
        obtain ⟨hn, hr⟩ := utf8_pf (char_toNat_lt c1) (char_toNat_lt c2) he
        exact ⟨char_toNat_inj hn, hr⟩)
      s.data t.data (fun _ _ => trivial) (fun _ _ => trivial) hbytes
  exact str_data_inj hchars

lemma quote_plus_no_qmark (s : String) : '?' ∉ (quote_plus s).data := by
  intro hmem
  rw [quote_plus_data, List.mem_flatMap] at hmem
  obtain ⟨b, hb, hq⟩ := hmem
  exact qmark_not_mem_quoteByte b (strBytes_lt s b hb) hq

/-! ### Locating the unique `?` separator of the descriptor -/

lemma append_first_qmark : ∀ v1 v2 r1 r2 : List Char, '?' ∉ v1 → '?' ∉ v2 →
    v1 ++ '?' :: r1 = v2 ++ '?' :: r2 → v1 = v2 ∧ r1 = r2 := by
  intro v1
  induction v1 with
  | nil =>
    intro v2 r1 r2 _ h2 heq
    cases v2 with
    | nil =>
      simp only [List.nil_append, List.cons.injEq] at heq
      exact ⟨rfl, heq.2⟩
    | cons c t =>
      exfalso
      simp only [List.nil_append, List.cons_append, List.cons.injEq] at heq
      apply h2
      rw [← heq.1]
      exact List.mem_cons_self _ _
  | cons c t ih =>
    intro v2 r1 r2 h1 h2 heq
    cases v2 with
    | nil =>
      exfalso
      simp only [List.nil_append, List.cons_append, List.cons.injEq] at heq
      apply h1
      rw [heq.1]
      exact List.mem_cons_self _ _
    | cons d u =>
      simp only [List.cons_append, List.cons.injEq] at heq
      obtain ⟨hcd, htail⟩ := heq
      obtain ⟨hv, hr⟩ := ih u r1 r2 (fun hm => h1 (List.mem_cons_of_mem c hm))
        (fun hm => h2 (List.mem_cons_of_mem d hm)) htail
      exact ⟨by rw [hcd, hv], hr⟩

lemma append_last_qmark {b1 b2 u1 u2 : List Char} (h1 : '?' ∉ u1) (h2 : '?' ∉ u2)
    (heq : b1 ++ '?' :: u1 = b2 ++ '?' :: u2) : b1 = b2 ∧ u1 = u2 := by
  have hrev := congrArg List.reverse heq
  simp only [List.reverse_append, List.reverse_cons, List.append_assoc,
    List.singleton_append] at hrev
  have h1' : '?' ∉ u1.reverse := fun hm => h1 (List.mem_reverse.mp hm)
  have h2' : '?' ∉ u2.reverse := fun hm => h2 (List.mem_reverse.mp hm)
  obtain ⟨hv, hr⟩ := append_first_qmark u1.reverse u2.reverse b1.reverse b2.reverse h1' h2' hrev
  exact ⟨List.reverse_inj.mp hr, List.reverse_inj.mp hv⟩

lemma queryChars_no_qmark (a : String) : '?' ∉ queryChars a := by
  intro hm
  rw [queryChars] at hm
  simp only [List.mem_append] at hm
  have d1 : '?' ∉ "agentId=".data := by decide
  have d2 : '?' ∉ "&agentDescription=".data := by decide
  rcases hm with ((hm | hm) | hm) | hm
  exacts [d1 hm, quote_plus_no_qmark a hm, d2 hm, quote_plus_no_qmark agentDescription hm]

lemma intercalate_pair (sep x y : String) : String.intercalate sep [x, y] = x ++ sep ++ y := rfl

lemma coralServerURL_data (b a : String) :
    (coralServerURL (some b) (some a)).data = b.data ++ '?' :: queryChars a := by
  have hq1 : quote_plus "agentId" = "agentId" := by decide
  have hq2 : quote_plus "agentDescription" = "agentDescription" := by decide
  have hqm : "?".data = ['?'] := rfl
  have e1 : ("agentId" ++ "=" : String).data = "agentId=".data := by decide
  have e2 : ("&" ++ "agentDescription" ++ "=" : String).data = "&agentDescription=".data := by
    decide
  unfold coralServerURL urlencode coral_params
  simp only [pyStr, List.map_cons, List.map_nil]
  rw [intercalate_pair, hq1, hq2]
  simp only [String.data_append, ← e1, ← e2, queryChars, hqm, List.append_assoc,
    List.singleton_append]
  simp [List.cons_append, List.append_assoc]

/-- C5: for every `base_url` and `agent_id` the connection descriptor is the
base URL, `?`, and the URL-encoded query parameters `agentId` and
`agentDescription`; in particular `base_url="https://x/sse"`,
`agent_id="A1"` yields exactly
`https://x/sse?agentId=A1&agentDescription=<encoded description>`. -/
theorem descriptor_construction (b a : String) :
    coralServerURL (some b) (some a) =
      b ++ "?" ++ "agentId=" ++ quote_plus a ++ "&agentDescription=" ++
        quote_plus agentDescription ∧
    coralServerURL (some "https://x/sse") (some "A1") =
      "https://x/sse?agentId=A1&agentDescription=An+AI+agent+that+generates+Reddit+posts+with+memory-enhanced+personalization" := by
  constructor
  · apply str_data_inj
    rw [coralServerURL_data]
    simp [String.data_append, queryChars, List.append_assoc, List.cons_append]
  · decide

/-- C6: descriptor construction is injective in the pair
`(agent_id, base_url)` — distinct pairs of environment strings never produce
colliding session URLs. -/
theorem descriptor_injective (b1 a1 b2 a2 : String)
    (h : (b1, a1) ≠ (b2, a2)) :
    coralServerURL (some b1) (some a1) ≠ coralServerURL (some b2) (some a2) := by
  intro heq
  apply h
  have hdata := congrArg String.data heq
  rw [coralServerURL_data, coralServerURL_data] at hdata
  obtain ⟨hb, hu⟩ := append_last_qmark (queryChars_no_qmark a1) (queryChars_no_qmark a2) hdata
  rw [queryChars, queryChars] at hu
  simp only [List.append_assoc] at hu
  have h1 := List.append_cancel_left hu
  rw [← List.append_assoc, ← List.append_assoc] at h1
  have h2 : (quote_plus a1).data ++ "&agentDescription=".data =
      (quote_plus a2).data ++ "&agentDescription=".data :=
    List.append_cancel_right h1
  have h3 : (quote_plus a1).data = (quote_plus a2).data := List.append_cancel_right h2
  have ha : a1 = a2 := quote_plus_inj (str_data_inj h3)
  rw [str_data_inj hb, ha]

/-- Witness for C6: two concretely distinct `(base_url, agent_id)` pairs give
distinct descriptors. -/
theorem descriptor_injective_witness :
    coralServerURL (some "https://x/sse") (some "A1") ≠
      coralServerURL (some "https://y/sse") (some "A2") :=
  descriptor_injective "https://x/sse" "A1" "https://y/sse" "A2" (by decide)

/-- C10: with both environment variables unset (`None`), descriptor
construction does not fail: the f-string and `urlencode` render the literal
text `None`, the descriptor is `None?agentId=None&agentDescription=...`, and
`setup_mcp_tools` proceeds to build the full `server_params` for the
connection attempt around it. -/
theorem missing_env_vars_none_descriptor :
    coralServerURL none none =
      "None?agentId=None&agentDescription=An+AI+agent+that+generates+Reddit+posts+with+memory-enhanced+personalization" ∧
    "None".data <:+: (coralServerURL none none).data ∧
    setup_server_params none none =
      { url := "None?agentId=None&agentDescription=An+AI+agent+that+generates+Reddit+posts+with+memory-enhanced+personalization"
        timeout := 600
        sse_read_timeout := 600
        transport := "sse" } := by
  refine ⟨by decide, ?_, by decide⟩
  decide

end CoralMem0
